import Mathlib

/-!
Shallow embedding of the cargo-income core of `src/src/cargo_payment.py`,
an OpenTTD cargo-payment calculator.  Python floats are modelled as exact
rationals, Python integers as `Int`, and Python exceptions as `Except`
values; the plotting and dashboard layers are out of scope.
-/

/-- Python exceptions that the embedded core can raise. -/
inductive PyError where
  | valueError (msg : String)
  | zeroDivisionError
  | typeError (msg : String)
deriving DecidableEq, Repr

/-- The `Cargo` enum of the source (lines 13-46): one member per cargo
kind, each carrying its `(Base Pay, Days1, Days2)` tuple. -/
inductive Cargo where
  | Batteries
  | Bubbles
  | Candyfloss
  | Coal
  | Cola
  | Copper_Ore
  | Diamonds
  | Fizzy_Drinks
  | Food
  | Fruit
  | Gold
  | Goods
  | Grain
  | Iron_Ore
  | Livestock
  | Mail
  | Maize
  | Oil
  | Oil_subtropical
  | Paper
  | Passengers
  | Plastic
  | Rubber
  | Steel
  | Sugar
  | Sweets
  | Toffee
  | Toys
  | Valuables
  | Water
  | Wheat
  | Wood
  | Wood_subtropical
deriving DecidableEq, Repr

/-- The `(base_pay, days1, days2)` tuple attached to each enum member,
transcribed from the source table. -/
def Cargo.value : Cargo → ℤ × ℤ × ℤ
  | .Batteries        => (4322,  2,  30)
  | .Bubbles          => (5077, 20,  80)
  | .Candyfloss       => (5005, 10,  25)
  | .Coal             => (5916,  7, 255)
  | .Cola             => (4892,  5,  75)
  | .Copper_Ore       => (4892, 12, 255)
  | .Diamonds         => (5802, 10, 255)
  | .Fizzy_Drinks     => (6250, 30,  50)
  | .Food             => (5688,  0,  30)
  | .Fruit            => (4209,  0,  15)
  | .Gold             => (5802, 10,  40)
  | .Goods            => (6144,  5,  28)
  | .Grain            => (4778,  4,  40)
  | .Iron_Ore         => (5120,  9, 255)
  | .Livestock        => (4322,  4,  18)
  | .Mail             => (4550, 20,  90)
  | .Maize            => (4322,  4,  40)
  | .Oil              => (4437, 25, 255)
  | .Oil_subtropical  => (4892, 25, 255)
  | .Paper            => (5461,  7,  60)
  | .Passengers       => (3185,  0,  24)
  | .Plastic          => (4664, 30, 255)
  | .Rubber           => (4437,  2,  20)
  | .Steel            => (5688,  7, 255)
  | .Sugar            => (4437, 20, 255)
  | .Sweets           => (6144,  8,  40)
  | .Toffee           => (4778, 14,  60)
  | .Toys             => (5574, 25, 255)
  | .Valuables        => (7509,  1,  32)
  | .Water            => (4664, 20,  80)
  | .Wheat            => (4778,  4,  40)
  | .Wood             => (5005, 15, 255)
  | .Wood_subtropical => (7964, 15, 255)

/-- Every member of the `Cargo` enum, in source order. -/
def Cargo.all : List Cargo :=
  [.Batteries, .Bubbles, .Candyfloss, .Coal, .Cola, .Copper_Ore, .Diamonds,
   .Fizzy_Drinks, .Food, .Fruit, .Gold, .Goods, .Grain, .Iron_Ore, .Livestock,
   .Mail, .Maize, .Oil, .Oil_subtropical, .Paper, .Passengers, .Plastic,
   .Rubber, .Steel, .Sugar, .Sweets, .Toffee, .Toys, .Valuables, .Water,
   .Wheat, .Wood, .Wood_subtropical]

instance : Fintype Cargo :=
  ⟨⟨Cargo.all, by decide⟩, by intro c; cases c <;> decide⟩

/-- One output row of the series generator: the `(Speed, Distance, Time,
Income)` columns of the dataframe built in the source. -/
structure IncomeSample where
  speed : ℚ
  distance : ℤ
  time : ℚ
  income : ℚ
deriving DecidableEq, Repr

/-- The income formula of the source (lines 56-74): optional ingame-day
scaling by 2.5, the piecewise time bonus, and the floor-at-31 branch. -/
def income (cargo : Cargo) (amount distance time : ℚ) (ingametime : Bool) : ℚ :=
  let time := if ingametime then time * (5 / 2) else time
  let base_pay : ℚ := (cargo.value.1 : ℚ)
  let days1 : ℚ := (cargo.value.2.1 : ℚ)
  let days2 : ℚ := (cargo.value.2.2 : ℚ)
  let tbonus : ℚ :=
    if time ≤ days1 then 255
    else if days1 < time ∧ time ≤ days1 + days2 then 255 - (time - days1)
    else 255 - 2 * (time - days1) + days2
  if tbonus < 31 then base_pay * amount * 31 * (1 / 2 ^ 21)
  else base_pay * amount * distance * tbonus * (1 / 2 ^ 21)

/-- Time-bonus piecewise function exactly as the spec states it, on
already-scaled time, for comparison with the `income` implementation. -/
def tbonus_spec (days1 days2 time : ℚ) : ℚ :=
  if time ≤ days1 then 255
  else if days1 < time ∧ time ≤ days1 + days2 then 255 - (time - days1)
  else 255 - 2 * (time - days1) + days2

/-- The time model of the source (lines 79-84): quarter the speed for
aircraft, convert via the 668 km tile constant, and divide.  A zero
divisor raises Python's `ZeroDivisionError`; there is no other check. -/
def speed_distance_to_time (speed distance : ℚ) (aircraft : Bool) : Except PyError ℚ :=
  let speed := if aircraft then speed / 4 else speed
  let speed_tiles_per_day := speed * 24 / 668
  if speed_tiles_per_day = 0 then .error .zeroDivisionError
  else .ok (distance / speed_tiles_per_day)

/-- A Python value that can reach the `is_aircraft` parameter of the
series generator: the source's default boolean `False`, or the list of
per-speed flags the callers pass. -/
inductive PyObj where
  | bool (b : Bool)
  | list (l : List Bool)
deriving DecidableEq, Repr

/-- Python `len`: defined on lists, raises `TypeError` on a boolean. -/
def pyLen : PyObj → Except PyError Nat
  | .bool _ => .error (.typeError "object of type 'bool' has no len()")
  | .list l => .ok l.length

/-- Python truthiness of a value in an `if` condition: a boolean is
itself, a list is truthy exactly when it is non-empty. -/
def pyTruthy : PyObj → Bool
  | .bool b => b
  | .list l => !l.isEmpty

/-- Python `range(lo, hi + 1)` as a list of integers: `lo, ..., hi`
inclusive, empty when `hi < lo`. -/
def int_range (lo hi : ℤ) : List ℤ :=
  (List.range (hi + 1 - lo).toNat).map (fun k => lo + (k : ℤ))

/-- Inner loop of the series generator (source lines 109-111): for one
speed, walk the distances, computing each time and then each income with
the source's call `income(cargo, 1, distance, time)` (ingame default). -/
def sweep_distances (cargo : Cargo) (aircraft : Bool) (speed : ℚ) :
    List ℤ → Except PyError (List IncomeSample)
  | [] => .ok []
  | d :: ds =>
    match speed_distance_to_time speed (d : ℚ) aircraft with
    | .error e => .error e
    | .ok t =>
      match sweep_distances cargo aircraft speed ds with
      | .error e => .error e
      | .ok rest => .ok (⟨speed, d, t, income cargo 1 (d : ℚ) t true⟩ :: rest)

/-- Outer loop of the series generator (source lines 106-111): one block
of rows per speed, in list order. -/
def sweep_speeds (cargo : Cargo) (aircraft : Bool) (ds : List ℤ) :
    List ℚ → Except PyError (List IncomeSample)
  | [] => .ok []
  | s :: rest =>
    match sweep_distances cargo aircraft s ds with
    | .error e => .error e
    | .ok rows =>
      match sweep_speeds cargo aircraft ds rest with
      | .error e => .error e
      | .ok more => .ok (rows ++ more)

/-- The series generator of the source (lines 91-113), up to the data it
tabulates (the plotly figure layer is out of scope).  Note two source
facts embedded faithfully: `len(is_aircraft)` raises `TypeError` when the
parameter is left at its boolean default, and the whole `is_aircraft`
value (not an element of it) is handed to `speed_distance_to_time`, where
Python only uses its truthiness. -/
def income_vs_distance_speed (cargo : Cargo) (distance_bounds : ℤ × ℤ)
    (speeds : List ℚ) (is_aircraft : PyObj) : Except PyError (List IncomeSample) :=
  match pyLen is_aircraft with
  | .error e => .error e
  | .ok n =>
    if speeds.length ≠ n then
      .error (.valueError "speeds and aircraft must be of same length")
    else
      sweep_speeds cargo (pyTruthy is_aircraft)
        (int_range distance_bounds.1 distance_bounds.2) speeds

/-- The default value of the `is_aircraft` parameter in the source
signature (line 91): the boolean `False`. -/
def is_aircraft_default : PyObj := PyObj.bool false

/-- The ingame-time instance of `income`, written through the spec-side
time-bonus function: this is a definitional unfolding of the source. -/
lemma income_ingame_eq (c : Cargo) (a d t : ℚ) :
    income c a d t true =
      if tbonus_spec (c.value.2.1 : ℚ) (c.value.2.2 : ℚ) (t * (5 / 2)) < 31 then
        (c.value.1 : ℚ) * a * 31 * (1 / 2 ^ 21)
      else
        (c.value.1 : ℚ) * a * d *
          tbonus_spec (c.value.2.1 : ℚ) (c.value.2.2 : ℚ) (t * (5 / 2)) * (1 / 2 ^ 21) :=
  rfl

/-- Every base pay in the cargo table is positive. -/
lemma value_fst_pos (c : Cargo) : 0 < c.value.1 := by cases c <;> decide

/-- C1: with `timeIsIngameDays` true, `income` scales time by 2.5, feeds
it to the spec's piecewise (unclamped) time-bonus function, and whenever
that bonus is at least 31 returns exactly
`base_pay * amount * distance * tbonus * 2 ^ (-21)`. -/
theorem income_high_tbonus_formula (c : Cargo) (amount distance time : ℚ)
    (h : 31 ≤ tbonus_spec (c.value.2.1 : ℚ) (c.value.2.2 : ℚ) (time * (5 / 2))) :
    income c amount distance time true =
      (c.value.1 : ℚ) * amount * distance *
        tbonus_spec (c.value.2.1 : ℚ) (c.value.2.2 : ℚ) (time * (5 / 2)) * (1 / 2 ^ 21) := by
  rw [income_ingame_eq, if_neg (not_lt.mpr h)]

theorem income_high_tbonus_formula_witness :
    31 ≤ tbonus_spec (Cargo.Passengers.value.2.1 : ℚ) (Cargo.Passengers.value.2.2 : ℚ)
        ((167 / 6 : ℚ) * (5 / 2)) ∧
    income Cargo.Passengers 1 100 (167 / 6) true =
      (Cargo.Passengers.value.1 : ℚ) * 1 * 100 *
        tbonus_spec (Cargo.Passengers.value.2.1 : ℚ) (Cargo.Passengers.value.2.2 : ℚ)
          ((167 / 6 : ℚ) * (5 / 2)) * (1 / 2 ^ 21) :=
  ⟨by norm_num [tbonus_spec, Cargo.value],
   income_high_tbonus_formula Cargo.Passengers 1 100 (167 / 6)
     (by norm_num [tbonus_spec, Cargo.value])⟩

/-- C3: whenever the raw time bonus falls below 31 (including negative
values at arbitrarily large times), `income` returns exactly
`base_pay * amount * 31 * 2 ^ (-21)`, independent of distance, and this
value is strictly positive for positive amounts. -/
theorem income_floor_at_31 (c : Cargo) (amount distance time : ℚ)
    (h : tbonus_spec (c.value.2.1 : ℚ) (c.value.2.2 : ℚ) (time * (5 / 2)) < 31) :
    income c amount distance time true = (c.value.1 : ℚ) * amount * 31 * (1 / 2 ^ 21) ∧
    (0 < amount → 0 < income c amount distance time true) := by
  have he : income c amount distance time true =
      (c.value.1 : ℚ) * amount * 31 * (1 / 2 ^ 21) := by
    rw [income_ingame_eq, if_pos h]
  refine ⟨he, fun ha => ?_⟩
  rw [he]
  have hbp : (0 : ℚ) < (c.value.1 : ℚ) := by exact_mod_cast value_fst_pos c
  exact mul_pos (mul_pos (mul_pos hbp ha) (by norm_num)) (by norm_num)

theorem income_floor_at_31_witness :
    tbonus_spec (Cargo.Passengers.value.2.1 : ℚ) (Cargo.Passengers.value.2.2 : ℚ)
        ((200 : ℚ) * (5 / 2)) < 31 ∧
    (income Cargo.Passengers 1 5 200 true =
        (Cargo.Passengers.value.1 : ℚ) * 1 * 31 * (1 / 2 ^ 21) ∧
      (0 < (1 : ℚ) → 0 < income Cargo.Passengers 1 5 200 true)) :=
  ⟨by norm_num [tbonus_spec, Cargo.value],
   income_floor_at_31 Cargo.Passengers 1 5 200 (by norm_num [tbonus_spec, Cargo.value])⟩

/-- C2: for positive speed the time model returns
`distance / (effectiveSpeed * 24 / 668)` with the speed quartered
exactly when the aircraft flag is set, and the aircraft form agrees with
the quartered-speed non-aircraft form. -/
theorem time_model_conversion (speed distance : ℚ) (aircraft : Bool) (h : 0 < speed) :
    speed_distance_to_time speed distance aircraft =
      .ok (distance / ((if aircraft then speed / 4 else speed) * 24 / 668)) ∧
    speed_distance_to_time speed distance true =
      speed_distance_to_time (speed / 4) distance false := by
  constructor
  · have hk : 0 < (if aircraft then speed / 4 else speed) := by
      split
      · linarith
      · exact h
    have hpos : 0 < (if aircraft then speed / 4 else speed) * 24 / 668 :=
      div_pos (mul_pos hk (by norm_num)) (by norm_num)
    simp only [speed_distance_to_time]
    rw [if_neg (ne_of_gt hpos)]
  · rfl

theorem time_model_conversion_witness :
    (0 : ℚ) < 100 ∧
    (speed_distance_to_time 100 50 false =
        .ok (50 / ((if false then (100 : ℚ) / 4 else 100) * 24 / 668)) ∧
      speed_distance_to_time 100 50 true = speed_distance_to_time (100 / 4) 50 false) :=
  ⟨by norm_num, time_model_conversion 100 50 false (by norm_num)⟩

/-- C5 as the code actually behaves: `speed_distance_to_time` performs no
speed validation; at zero speed the division itself raises
`ZeroDivisionError`, and at negative speed it silently returns a negative
time instead of failing. -/
theorem speed_nonpositive_behavior (speed distance : ℚ) (aircraft : Bool) :
    (speed = 0 → speed_distance_to_time speed distance aircraft = .error .zeroDivisionError) ∧
    (speed < 0 → 0 < distance →
      ∃ t, speed_distance_to_time speed distance aircraft = .ok t ∧ t < 0) := by
  constructor
  · intro h
    subst h
    have hz : (if aircraft then (0 : ℚ) / 4 else 0) * 24 / 668 = 0 := by
      split <;> norm_num
    simp only [speed_distance_to_time]
    rw [if_pos hz]
  · intro hs hd
    have hk : (if aircraft then speed / 4 else speed) < 0 := by
      split
      · linarith
      · exact hs
    have hkk : (if aircraft then speed / 4 else speed) * 24 / 668 < 0 :=
      div_neg_of_neg_of_pos (mul_neg_of_neg_of_pos hk (by norm_num)) (by norm_num)
    refine ⟨distance / ((if aircraft then speed / 4 else speed) * 24 / 668), ?_,
      div_neg_of_pos_of_neg hd hkk⟩
    simp only [speed_distance_to_time]
    rw [if_neg (ne_of_lt hkk)]

theorem speed_nonpositive_behavior_witness :
    speed_distance_to_time 0 1 false = .error .zeroDivisionError ∧
    (∃ t, speed_distance_to_time (-1) 1 false = .ok t ∧ t < 0) :=
  ⟨(speed_nonpositive_behavior 0 1 false).1 rfl,
   (speed_nonpositive_behavior (-1) 1 false).2 (by norm_num) (by norm_num)⟩

/-- C5 counterexample to the claim as stated: at speed `-1` (which is
nonpositive) the function does not fail at all, returning the negative
time `-(167 / 6)`. -/
theorem no_invalid_speed_error_cx :
    speed_distance_to_time (-1) 1 false = .ok (-(167 / 6)) ∧ (-(167 / 6) : ℚ) < 0 := by
  constructor
  · simp only [speed_distance_to_time]
    norm_num
  · norm_num

/-- C9: with cargo, amount, speed and flag fixed, and both trips inside
the full-bonus regime (scaled time at most `days1`), income is
non-decreasing in distance. -/
theorem income_monotone_in_distance (c : Cargo) (amount speed : ℚ) (aircraft : Bool)
    (d1 d2 t1 t2 : ℚ) (ha : 0 ≤ amount) (hd : d1 ≤ d2)
    (h1 : speed_distance_to_time speed d1 aircraft = .ok t1)
    (h2 : speed_distance_to_time speed d2 aircraft = .ok t2)
    (hb1 : t1 * (5 / 2) ≤ (c.value.2.1 : ℚ))
    (hb2 : t2 * (5 / 2) ≤ (c.value.2.1 : ℚ)) :
    income c amount d1 t1 true ≤ income c amount d2 t2 true := by
  have e : ∀ d t : ℚ, t * (5 / 2) ≤ (c.value.2.1 : ℚ) →
      income c amount d t true = (c.value.1 : ℚ) * amount * d * 255 * (1 / 2 ^ 21) := by
    intro d t hb
    have htb : tbonus_spec (c.value.2.1 : ℚ) (c.value.2.2 : ℚ) (t * (5 / 2)) = 255 := by
      simp only [tbonus_spec]
      rw [if_pos hb]
    rw [income_ingame_eq, htb]
    norm_num
  rw [e d1 t1 hb1, e d2 t2 hb2]
  have hbp : (0 : ℚ) ≤ (c.value.1 : ℚ) := by exact_mod_cast (value_fst_pos c).le
  have key : (c.value.1 : ℚ) * amount * d1 ≤ (c.value.1 : ℚ) * amount * d2 :=
    mul_le_mul_of_nonneg_left hd (mul_nonneg hbp ha)
  exact mul_le_mul_of_nonneg_right
    (mul_le_mul_of_nonneg_right key (by norm_num)) (by norm_num)

theorem income_monotone_in_distance_witness :
    (0 : ℚ) ≤ 1 ∧ (1 : ℚ) ≤ 2 ∧
    speed_distance_to_time 668 1 false = .ok (1 / 24) ∧
    speed_distance_to_time 668 2 false = .ok (1 / 12) ∧
    (1 / 24 : ℚ) * (5 / 2) ≤ (Cargo.Coal.value.2.1 : ℚ) ∧
    (1 / 12 : ℚ) * (5 / 2) ≤ (Cargo.Coal.value.2.1 : ℚ) ∧
    income Cargo.Coal 1 1 (1 / 24) true ≤ income Cargo.Coal 1 2 (1 / 12) true :=
  ⟨by norm_num, by norm_num,
   by simp only [speed_distance_to_time]; norm_num,
   by simp only [speed_distance_to_time]; norm_num,
   by norm_num [Cargo.value],
   by norm_num [Cargo.value],
   income_monotone_in_distance Cargo.Coal 1 668 false 1 2 (1 / 24) (1 / 12)
     (by norm_num) (by norm_num)
     (by simp only [speed_distance_to_time]; norm_num)
     (by simp only [speed_distance_to_time]; norm_num)
     (by norm_num [Cargo.value]) (by norm_num [Cargo.value])⟩

/-- Any error produced by the time model is a division-by-zero error. -/
lemma speed_distance_to_time_error_eq (speed distance : ℚ) (aircraft : Bool) (e : PyError)
    (h : speed_distance_to_time speed distance aircraft = .error e) :
    e = PyError.zeroDivisionError := by
  by_cases hz : (if aircraft then speed / 4 else speed) * 24 / 668 = 0
  · have hval : speed_distance_to_time speed distance aircraft =
        .error .zeroDivisionError := by
      simp only [speed_distance_to_time]
      rw [if_pos hz]
    rw [hval] at h
    exact (Except.error.inj h).symm
  · have hval : speed_distance_to_time speed distance aircraft =
        .ok (distance / ((if aircraft then speed / 4 else speed) * 24 / 668)) := by
      simp only [speed_distance_to_time]
      rw [if_neg hz]
    rw [hval] at h
    simp at h

/-- The inner sweep loop can only fail with a division-by-zero error,
never with the length-mismatch `ValueError`. -/
lemma sweep_distances_no_valueError (c : Cargo) (a : Bool) (s : ℚ) (ds : List ℤ)
    (msg : String) : sweep_distances c a s ds ≠ .error (.valueError msg) := by
  induction ds with
  | nil => simp [sweep_distances]
  | cons d ds ih =>
    cases hsd : speed_distance_to_time s (d : ℚ) a with
    | error e =>
      have he := speed_distance_to_time_error_eq s (d : ℚ) a e hsd
      subst he
      simp [sweep_distances, hsd]
    | ok t =>
      cases hrec : sweep_distances c a s ds with
      | error e =>
        intro hcon
        simp only [sweep_distances, hsd, hrec] at hcon
        exact ih (hrec.trans hcon)
      | ok rest => simp [sweep_distances, hsd, hrec]

/-- The outer sweep loop can only fail with a division-by-zero error,
never with the length-mismatch `ValueError`. -/
lemma sweep_speeds_no_valueError (c : Cargo) (a : Bool) (ds : List ℤ) (ss : List ℚ)
    (msg : String) : sweep_speeds c a ds ss ≠ .error (.valueError msg) := by
  induction ss with
  | nil => simp [sweep_speeds]
  | cons s rest ih =>
    cases hrow : sweep_distances c a s ds with
    | error e =>
      intro hcon
      simp only [sweep_speeds, hrow] at hcon
      exact sweep_distances_no_valueError c a s ds msg (hrow.trans hcon)
    | ok rows =>
      cases hrec : sweep_speeds c a ds rest with
      | error e =>
        intro hcon
        simp only [sweep_speeds, hrow, hrec] at hcon
        exact ih (hrec.trans hcon)
      | ok more => simp [sweep_speeds, hrow, hrec]

/-- C6: with parallel flag and speed lists of different lengths the
generator fails with the length-mismatch error before producing any
sample, and with equal lengths that error can never be the result. -/
theorem series_length_precondition (c : Cargo) (bounds : ℤ × ℤ) (speeds : List ℚ)
    (flags : List Bool) :
    (speeds.length ≠ flags.length →
      income_vs_distance_speed c bounds speeds (.list flags) =
        .error (.valueError "speeds and aircraft must be of same length")) ∧
    (speeds.length = flags.length →
      ∀ msg, income_vs_distance_speed c bounds speeds (.list flags) ≠
        .error (.valueError msg)) := by
  constructor
  · intro h
    simp [income_vs_distance_speed, pyLen, h]
  · intro h msg
    have hnot : ¬ speeds.length ≠ flags.length := fun hne => hne h
    simp only [income_vs_distance_speed, pyLen]
    rw [if_neg hnot]
    exact sweep_speeds_no_valueError c (pyTruthy (PyObj.list flags))
      (int_range bounds.1 bounds.2) speeds msg

theorem series_length_precondition_witness :
    (([50] : List ℚ).length ≠ ([] : List Bool).length ∧
      income_vs_distance_speed Cargo.Passengers (0, 0) [50] (.list []) =
        .error (.valueError "speeds and aircraft must be of same length")) ∧
    (([50] : List ℚ).length = ([false] : List Bool).length ∧
      income_vs_distance_speed Cargo.Passengers (0, 0) [50] (.list [false]) ≠
        .error (.valueError "speeds and aircraft must be of same length")) :=
  ⟨⟨by decide, (series_length_precondition Cargo.Passengers (0, 0) [50] []).1 (by decide)⟩,
   ⟨by decide, (series_length_precondition Cargo.Passengers (0, 0) [50] [false]).2 (by decide)
      "speeds and aircraft must be of same length"⟩⟩

/-- C10: calling the generator with the source's default `is_aircraft`
value, the boolean `False`, always raises `TypeError` inside `len` and
never returns a series. -/
theorem default_is_aircraft_type_error (c : Cargo) (bounds : ℤ × ℤ) (speeds : List ℚ) :
    income_vs_distance_speed c bounds speeds is_aircraft_default =
      .error (.typeError "object of type 'bool' has no len()") := rfl

/-- C4 refuted on the code at a concrete input: the generator passes the
whole flag list (not the positional flag) to the time model, where the
non-empty list `[False]` is truthy, so the emitted time is the
quartered-speed time `167 / 150` rather than the own-flag time
`167 / 600` that the claim requires. -/
theorem series_aircraft_flag_truthiness :
    income_vs_distance_speed Cargo.Passengers (1, 1) [100] (.list [false]) =
      .ok [⟨100, 1, 167 / 150, income Cargo.Passengers 1 1 (167 / 150) true⟩] ∧
    speed_distance_to_time 100 1 true = .ok (167 / 150) ∧
    speed_distance_to_time 100 1 false = .ok (167 / 600) ∧
    (167 / 150 : ℚ) ≠ 167 / 600 := by
  refine ⟨?_, ?_, ?_, by norm_num⟩
  · simp only [income_vs_distance_speed, pyLen, pyTruthy, int_range, sweep_speeds,
      sweep_distances, speed_distance_to_time]
    norm_num
  · simp only [speed_distance_to_time]
    norm_num
  · simp only [speed_distance_to_time]
    norm_num

/-- C7: the concrete Passengers scenario: 100 tiles at 100 km/h, not
aircraft, gives time `167 / 6` (about 27.83 ingame days), scaled time
`835 / 12` (about 69.58), the third bonus branch (scaled time exceeds
`days1 + days2 = 24`) with bonus about 139.84, and income about 21.2,
exactly equal to the spec's derivation. -/
theorem passengers_scenario :
    speed_distance_to_time 100 100 false = .ok (167 / 6) ∧
    (167 / 6 : ℚ) * (5 / 2) = 835 / 12 ∧
    (Cargo.Passengers.value.2.1 : ℚ) + (Cargo.Passengers.value.2.2 : ℚ) < 835 / 12 ∧
    tbonus_spec (Cargo.Passengers.value.2.1 : ℚ) (Cargo.Passengers.value.2.2 : ℚ) (835 / 12) =
      255 - 2 * (835 / 12 - 0) + 24 ∧
    income Cargo.Passengers 1 100 (167 / 6) true =
      3185 * 1 * 100 * (255 - 2 * (835 / 12 - 0) + 24) * (1 / 2 ^ 21) ∧
    |(167 / 6 : ℚ) - 2783 / 100| < 1 / 100 ∧
    |(835 / 12 : ℚ) - 6958 / 100| < 1 / 100 ∧
    |tbonus_spec (Cargo.Passengers.value.2.1 : ℚ) (Cargo.Passengers.value.2.2 : ℚ) (835 / 12)
        - 13984 / 100| < 1 / 100 ∧
    |income Cargo.Passengers 1 100 (167 / 6) true - 212 / 10| < 5 / 100 := by
  refine ⟨?_, by norm_num, by norm_num [Cargo.value], ?_, ?_, ?_, ?_, ?_, ?_⟩
  · simp only [speed_distance_to_time]
    norm_num
  · norm_num [tbonus_spec, Cargo.value]
  · norm_num [income, Cargo.value]
  · rw [abs_lt]
    constructor <;> norm_num
  · rw [abs_lt]
    constructor <;> norm_num
  · rw [abs_lt]
    constructor <;> norm_num [tbonus_spec, Cargo.value]
  · rw [abs_lt]
    constructor <;> norm_num [income, Cargo.value]

/-- C8 refuted on the code: the cargo catalog has 33 entries, not 32
(the source table lists subtropical variants of Oil and Wood as separate
members). -/
theorem cargo_count_cx : Fintype.card Cargo = 33 := by decide

/-- C8 amended: the catalog is a fixed table of exactly 33 named
entries, each an integer triple with positive base pay and non-negative
decay windows, with Passengers carrying `(3185, 0, 24)`. -/
theorem cargo_catalog_facts :
    Fintype.card Cargo = 33 ∧
    (∀ c : Cargo, 0 < c.value.1 ∧ 0 ≤ c.value.2.1 ∧ 0 ≤ c.value.2.2) ∧
    Cargo.Passengers.value = (3185, 0, 24) :=
  ⟨by decide, fun c => by cases c <;> decide, by decide⟩
